import Mathlib

/-!
Verification development for the safeCRUD typed HTTP helper.

The repository exposes two operations, `GET` (src/methods/get.ts) and
`POST` (src/methods/post.ts), sharing a linear pipeline:
URL resolution (`buildUrl`, src/utils/toolkit.ts) → (POST) body-presence
check and body encoding → transport invocation (`fetch`) → response
decoding (`response.json()` / `response.text()`) → optional schema
validation (zod) → optional `parseResponse` transform, with a top-level
catch that rethrows `HttpError`/`ValidationError` verbatim and wraps any
other failure into a generic `Error` with a `Request failed:` message.

External collaborators (the WHATWG `URL` platform object, the `fetch`
transport, and the zod schema engine) are black boxes to the repository;
they are modelled here as explicit parameters (`URLApi`, a transport
function, `ZodSchema`), while every piece of repository-owned logic is
translated directly from the TypeScript source.
-/

/-- JavaScript values flowing through the pipeline (request bodies,
decoded JSON response data). Numbers are modelled as integers: every
numeric value the claims exercise is integral. -/
inductive Json where
  | null : Json
  | bool (b : Bool) : Json
  | num (n : Int) : Json
  | str (s : String) : Json
  | arr (elems : List Json) : Json
  | obj (fields : List (String × Json)) : Json
deriving Repr

/-- Structured error produced by the zod schema engine (`ZodError`).
The pipeline treats it as opaque data: it only ever stores it inside a
`ValidationError` or reads its `message`. `issues` stands for the
field-level diagnostics, `message` for the JS `Error.message` (for zod,
a rendering of the issues). -/
structure ZodError where
  message : String
  issues : List String
deriving Repr, DecidableEq

/-- Thrown JavaScript values, as distinguished by the repository's catch
blocks. `httpError` and `validationError` are the repository's own error
classes (src/utils/classes.ts); `zodRaw` is a raw `ZodError` escaping
`schema.parse` (an `Error`, but neither `HttpError` nor
`ValidationError`); `error` is any other `Error` instance, identified by
its message (generic `Error`, `TypeError`, `SyntaxError`, ...);
`thrownValue` is a thrown non-`Error` value. -/
inductive JsError where
  | httpError (status : Int) (message : String) : JsError
  | validationError (zodError : ZodError) : JsError
  | zodRaw (e : ZodError) : JsError
  | error (message : String) : JsError
  | thrownValue (v : Json) : JsError
deriving Repr

/-- Whether the thrown value satisfies `instanceof Error`. All modelled
throwables except a bare non-`Error` value are `Error` instances. -/
def JsError.isError : JsError → Bool
  | .thrownValue _ => false
  | _ => true

/-- JS `error.message` of a thrown `Error` instance. `HttpError` carries
the message given to its constructor; `ValidationError`'s constructor
always passes `"Validation failed"` to `super`; a raw `ZodError` carries
the engine's message. Unused for non-`Error` values. -/
def JsError.message : JsError → String
  | .httpError _ m => m
  | .validationError _ => "Validation failed"
  | .zodRaw e => e.message
  | .error m => m
  | .thrownValue _ => ""

/-- Model of a zod schema for the pipeline: the engine's verdict on a
decoded value. zod defines `safeParse` as `parse` wrapped in try/catch,
so one result function determines both entry points: `safeParse x`
returns `ok`/`error` as a result object, and `parse x` returns the same
value on `ok` and throws the same `ZodError` on `error`. -/
structure ZodSchema where
  safeParse : Json → Except ZodError Json

/-- Content types supported by the helper (src/types/enums.ts). A closed
enum; the `default` branch of the POST body encoder is unreachable for
values of this type. -/
inductive ContentType where
  | JSON | FORM_URLENCODED | TEXT | XML | HTML
deriving Repr, DecidableEq

/-- MIME string of each enum member, used as the `Accept` header (GET)
and `Content-Type` header (POST). -/
def ContentType.mime : ContentType → String
  | .JSON => "application/json"
  | .FORM_URLENCODED => "application/x-www-form-urlencoded"
  | .TEXT => "text/plain"
  | .XML => "application/xml"
  | .HTML => "text/html"

/-- Values allowed in `queryParams: Record<string, string | number | boolean>`. -/
inductive QueryVal where
  | str (s : String) : QueryVal
  | num (n : Int) : QueryVal
  | bool (b : Bool) : QueryVal
deriving Repr, DecidableEq

/-- JS `String(value)` on a query-parameter value (integral numbers
print their decimal digits). -/
def QueryVal.jsString : QueryVal → String
  | .str s => s
  | .num n => toString n
  | .bool b => if b then "true" else "false"

/-- JS truthiness of an optional string: `undefined` and the empty
string are falsy, every other string is truthy. -/
def jsTruthy : Option String → Bool
  | none => false
  | some s => !(s == "")

/-- Hexadecimal digit (uppercase), for percent-encoding. -/
def hexDigit (n : Nat) : String :=
  match n with
  | 0 => "0" | 1 => "1" | 2 => "2" | 3 => "3" | 4 => "4"
  | 5 => "5" | 6 => "6" | 7 => "7" | 8 => "8" | 9 => "9"
  | 10 => "A" | 11 => "B" | 12 => "C" | 13 => "D" | 14 => "E"
  | _ => "F"

/-- UTF-8 encoding of a character, as byte values. -/
def utf8Bytes (c : Char) : List Nat :=
  let n := c.toNat
  if n < 0x80 then [n]
  else if n < 0x800 then
    [0xC0 + n / 0x40, 0x80 + n % 0x40]
  else if n < 0x10000 then
    [0xE0 + n / 0x1000, 0x80 + n / 0x40 % 0x40, 0x80 + n % 0x40]
  else
    [0xF0 + n / 0x40000, 0x80 + n / 0x1000 % 0x40, 0x80 + n / 0x40 % 0x40, 0x80 + n % 0x40]

/-- Characters the urlencoded serializer leaves unescaped. -/
def isFormSafe (c : Char) : Bool :=
  c.isAlphanum || c == '*' || c == '-' || c == '.' || c == '_'

/-- Percent-encoding of one character per application/x-www-form-urlencoded:
safe characters verbatim, space as `+`, everything else as percent-escaped
UTF-8 bytes. -/
def formEncodeChar (c : Char) : String :=
  if isFormSafe c then String.singleton c
  else if c == ' ' then "+"
  else String.join ((utf8Bytes c).map (fun b => "%" ++ hexDigit (b / 16) ++ hexDigit (b % 16)))

/-- Form-urlencode a string. -/
def formEncode (s : String) : String :=
  String.join (s.data.map formEncodeChar)

/-- Serialization of a `URLSearchParams` list: `k=v` pairs joined by `&`,
keys and values form-urlencoded. -/
def renderQuery (q : List (String × String)) : String :=
  String.intercalate "&" (q.map (fun p => formEncode p.1 ++ "=" ++ formEncode p.2))

/-- Model of a platform `URL` object as the repository observes it: the
serialized part before the query (scheme, host, path — already
normalized by the platform parser) plus the search-parameter list, which
is the only component the repository manipulates (`searchParams.append`). -/
structure URLRec where
  base : String
  query : List (String × String)
deriving Repr, DecidableEq

/-- JS `url.toString()`: the normalized base followed by the serialized
query when non-empty. -/
def URLRec.render (u : URLRec) : String :=
  u.base ++ (if u.query.isEmpty then "" else "?" ++ renderQuery u.query)

/-- The WHATWG URL platform capability, external to the repository:
`parseAbs s` models `new URL(s)` and `resolveRel route base` models
`new URL(route, base)`; an `error m` outcome models the constructor
throwing a `TypeError` with message `m`. -/
structure URLApi where
  parseAbs : String → Except String URLRec
  resolveRel : String → String → Except String URLRec

/-- JSON text of a string literal: quotes, with quote, backslash and the
common control characters escaped as `JSON.stringify` does. -/
def jsonEscape (s : String) : String :=
  String.join (s.data.map (fun c =>
    if c == '"' then "\\\""
    else if c == '\\' then "\\\\"
    else if c == '\n' then "\\n"
    else if c == '\t' then "\\t"
    else if c == '\r' then "\\r"
    else String.singleton c))

mutual
/-- JS `JSON.stringify` on modelled values (src/methods/post.ts JSON
body encoding). -/
def jsonStringify : Json → String
  | .null => "null"
  | .bool b => if b then "true" else "false"
  | .num n => toString n
  | .str s => "\"" ++ jsonEscape s ++ "\""
  | .arr elems => "[" ++ jsonStringifyList elems ++ "]"
  | .obj fields => "\x7b" ++ jsonStringifyFields fields ++ "\x7d"

/-- Comma-separated stringification of array elements. -/
def jsonStringifyList : List Json → String
  | [] => ""
  | [x] => jsonStringify x
  | x :: xs => jsonStringify x ++ "," ++ jsonStringifyList xs

/-- Comma-separated stringification of object fields. -/
def jsonStringifyFields : List (String × Json) → String
  | [] => ""
  | [(k, v)] => "\"" ++ jsonEscape k ++ "\":" ++ jsonStringify v
  | (k, v) :: fs => "\"" ++ jsonEscape k ++ "\":" ++ jsonStringify v ++ "," ++ jsonStringifyFields fs
end

mutual
/-- JS `String(value)` coercion of a modelled value. Arrays join their
coerced elements with commas (null elements become empty); plain objects
coerce to `[object Object]`. -/
def jsCoerceString : Json → String
  | .null => "null"
  | .bool b => if b then "true" else "false"
  | .num n => toString n
  | .str s => s
  | .arr elems => jsCoerceList elems
  | .obj _ => "[object Object]"

/-- Array-to-string coercion: `Array.prototype.join(",")`. -/
def jsCoerceList : List Json → String
  | [] => ""
  | [x] => (match x with | .null => "" | v => jsCoerceString v)
  | x :: xs => (match x with | .null => "" | v => jsCoerceString v) ++ "," ++ jsCoerceList xs
end

/-- POST request-body encoding by declared content type (the switch in
src/methods/post.ts). JSON serializes the body; FORM_URLENCODED feeds
the body, typed `Record<string,string>`, to `new URLSearchParams(...)`
and serializes (non-record initializers fall outside the typed contract
and are modelled as the empty parameter list); TEXT/XML/HTML pass the
body through as a string (`body as string`; a non-string value is
coerced by the platform when sent). The `default` branch that throws
`Unsupported Content-Type` is unreachable: `ContentType` is closed. -/
def encodeBody (contentType : ContentType) (body : Json) : String :=
  match contentType with
  | .JSON => jsonStringify body
  | .FORM_URLENCODED =>
    match body with
    | .obj fields => renderQuery (fields.map (fun p => (p.1, jsCoerceString p.2)))
    | _ => renderQuery []
  | .TEXT | .XML | .HTML =>
    match body with
    | .str s => s
    | v => jsCoerceString v

/-- The `buildUrl` helper shared by GET and POST (src/utils/toolkit.ts,
duplicated inside src/methods/post.ts): inside a try block, a truthy
`url` is parsed absolutely; otherwise truthy `baseUrl` and `route` are
resolved relatively; otherwise a generic configuration error is thrown.
The catch wraps whatever was thrown (including the platform
`TypeError`) into `Invalid URL: <message>`. -/
def buildUrl (api : URLApi) (baseUrl route url : Option String) : Except JsError String :=
  let attempt : Except String String :=
    if jsTruthy url then
      match api.parseAbs (url.getD "") with
      | .ok rec => .ok rec.render
      | .error m => .error m
    else if jsTruthy baseUrl && jsTruthy route then
      match api.resolveRel (route.getD "") (baseUrl.getD "") with
      | .ok rec => .ok rec.render
      | .error m => .error m
    else
      .error "Either 'url' or both 'baseUrl' and 'route' must be provided and valid"
  match attempt with
  | .ok s => .ok s
  | .error m => .error (.error ("Invalid URL: " ++ m))

/-- The `appendQueryParams` helper of src/methods/get.ts: re-parse the
resolved URL, append each `Object.entries` pair in iteration order via
`searchParams.append(key, String(value))`, and serialize. A platform
parse failure (`TypeError`) propagates: the helper runs outside the
try block. -/
def appendQueryParams (api : URLApi) (url : String)
    (params : List (String × QueryVal)) : Except JsError String :=
  match api.parseAbs url with
  | .error m => .error (.error m)
  | .ok urlObj =>
    .ok (URLRec.render
      ⟨urlObj.base, urlObj.query ++ params.map (fun p => (p.1, p.2.jsString))⟩)

/-- JS object-spread header merge: base entries first, then
`additionalHeaders`, later keys overriding earlier ones. -/
def mergeHeaders (base extra : List (String × String)) : List (String × String) :=
  base.filter (fun p => extra.all (fun q => !(q.1 == p.1))) ++ extra

/-- A transport response as the pipeline observes it: the integer
status, the outcome of `response.json()` (a parsed value, or the message
of the `SyntaxError` the platform parser throws), and the text that
`response.text()` yields. -/
structure Response where
  status : Int
  jsonBody : Except String Json
  textBody : String

/-- JS `response.ok`: status in the inclusive range 200–299. -/
def Response.ok (r : Response) : Bool :=
  200 ≤ r.status && r.status ≤ 299

/-- Response decoding (both methods): `contentType === ContentType.JSON
? await response.json() : await response.text()`. A JSON parse failure
throws; every other content type yields the raw text. -/
def decodeResponse (contentType : ContentType) (r : Response) : Except JsError Json :=
  if contentType == ContentType.JSON then
    match r.jsonBody with
    | .ok v => .ok v
    | .error m => .error (.error m)
  else
    .ok (.str r.textBody)

/-- The validation block shared verbatim by GET and POST. With a schema
and `safeParse` true, `schema.safeParse` is consulted and a failure is
wrapped into a `ValidationError`; with `safeParse` false,
`schema.parse` is called, whose failure throws the raw `ZodError`
itself. Without a schema the decoded value passes through unchanged. -/
def validateData (schema : Option ZodSchema) (safeParse : Bool)
    (responseData : Json) : Except JsError Json :=
  match schema with
  | some s =>
    if safeParse then
      match s.safeParse responseData with
      | .ok v => .ok v
      | .error ze => .error (.validationError ze)
    else
      match s.safeParse responseData with
      | .ok v => .ok v
      | .error ze => .error (.zodRaw ze)
  | none => .ok responseData

/-- The catch block shared verbatim by GET and POST: `HttpError` and
`ValidationError` are rethrown as they are; anything else becomes a
generic `Error` whose message is `Request failed: ` followed by the
original message when the thrown value is an `Error`, or by
`An unknown error occurred` otherwise. -/
def wrapCatch : JsError → JsError
  | .httpError s m => .httpError s m
  | .validationError z => .validationError z
  | e => .error ("Request failed: " ++ (if e.isError then e.message else "An unknown error occurred"))

/-- Configuration of a GET call (GetConfig of src/methods/get.ts).
`none` stands for an omitted field; `contentType` and `safeParse` have
destructuring defaults (JSON, false) applied by `GET`. `queryParams` as
a JS object iterates in insertion order, modelled by the list order.
The response type R is modelled as `Json`; `parseResponse` may throw,
hence its `Except` result. -/
structure GetConfig where
  url : Option String
  baseUrl : Option String
  route : Option String
  queryParams : Option (List (String × QueryVal))
  contentType : Option ContentType
  schema : Option ZodSchema
  safeParse : Option Bool
  additionalHeaders : List (String × String)
  parseResponse : Option (Json → Except JsError Json)

/-- Configuration of a POST call (PostConfig of src/methods/post.ts).
`body = none` models `body === undefined`; `some Json.null` models an
explicit JS `null` body. -/
structure PostConfig where
  url : Option String
  baseUrl : Option String
  route : Option String
  body : Option Json
  contentType : Option ContentType
  schema : Option ZodSchema
  safeParse : Option Bool
  additionalHeaders : List (String × String)
  parseResponse : Option (Json → Except JsError Json)

/-- One recorded invocation of the transport by GET. -/
structure GetCall where
  url : String
  headers : List (String × String)
deriving Repr, DecidableEq

/-- One recorded invocation of the transport by POST, with the encoded
request body. -/
structure PostCall where
  url : String
  headers : List (String × String)
  body : String
deriving Repr, DecidableEq

/-- URL resolution of a GET call, run before the try block: `buildUrl`,
then `appendQueryParams` when `queryParams` is supplied (a JS object is
always truthy, even when empty). -/
def resolveGetUrl (api : URLApi) (cfg : GetConfig) : Except JsError String :=
  match buildUrl api cfg.baseUrl cfg.route cfg.url with
  | .error e => .error e
  | .ok fullUrl =>
    match cfg.queryParams with
    | some ps => appendQueryParams api fullUrl ps
    | none => .ok fullUrl

/-- Body of the try block of GET: invoke the transport, rejections
propagating; on a non-ok status throw an `HttpError`; otherwise decode,
validate, and apply `parseResponse` when supplied. -/
def tryGet (transport : GetCall → Except JsError Response) (call : GetCall)
    (contentType : ContentType) (schema : Option ZodSchema) (safeParse : Bool)
    (parseResponse : Option (Json → Except JsError Json)) : Except JsError Json :=
  match transport call with
  | .error e => .error e
  | .ok response =>
    if response.ok then
      match decodeResponse contentType response with
      | .error e => .error e
      | .ok responseData =>
        match validateData schema safeParse responseData with
        | .error e => .error e
        | .ok parsedData =>
          match parseResponse with
          | some f => f parsedData
          | none => .ok parsedData
    else
      .error (.httpError response.status
        ("Network response was not ok, status: " ++ toString response.status))

/-- The GET operation (src/methods/get.ts), against a given URL platform
and transport. Returns the call's outcome together with the list of
transport invocations made. URL resolution failures and the
query-append step happen before the try block, so their errors escape
unwrapped and no transport call is recorded; once the transport is
invoked, the try/catch governs the outcome. -/
def GET (api : URLApi) (transport : GetCall → Except JsError Response)
    (cfg : GetConfig) : Except JsError Json × List GetCall :=
  match resolveGetUrl api cfg with
  | .error e => (.error e, [])
  | .ok urlWithParams =>
    let call : GetCall :=
      ⟨urlWithParams,
       mergeHeaders [("Accept", (cfg.contentType.getD ContentType.JSON).mime)] cfg.additionalHeaders⟩
    match tryGet transport call (cfg.contentType.getD ContentType.JSON) cfg.schema
        (cfg.safeParse.getD false) cfg.parseResponse with
    | .ok v => (.ok v, [call])
    | .error e => (.error (wrapCatch e), [call])

/-- Body of the try block of POST: like `tryGet`, with the encoded body
handed to the transport. -/
def tryPost (transport : PostCall → Except JsError Response) (call : PostCall)
    (contentType : ContentType) (schema : Option ZodSchema) (safeParse : Bool)
    (parseResponse : Option (Json → Except JsError Json)) : Except JsError Json :=
  match transport call with
  | .error e => .error e
  | .ok response =>
    if response.ok then
      match decodeResponse contentType response with
      | .error e => .error e
      | .ok responseData =>
        match validateData schema safeParse responseData with
        | .error e => .error e
        | .ok parsedData =>
          match parseResponse with
          | some f => f parsedData
          | none => .ok parsedData
    else
      .error (.httpError response.status
        ("Network response was not ok, status: " ++ toString response.status))

/-- The POST operation (src/methods/post.ts). `buildUrl` runs first;
then `body === undefined` fails fast with `Body must be provided` —
both outside the try block, so those errors escape unwrapped and the
transport is never invoked. Then headers and the encoded body are
built and the try/catch governs the rest. -/
def POST (api : URLApi) (transport : PostCall → Except JsError Response)
    (cfg : PostConfig) : Except JsError Json × List PostCall :=
  match buildUrl api cfg.baseUrl cfg.route cfg.url with
  | .error e => (.error e, [])
  | .ok fullUrl =>
    match cfg.body with
    | none => (.error (.error "Body must be provided"), [])
    | some body =>
      let contentType := cfg.contentType.getD ContentType.JSON
      let call : PostCall :=
        ⟨fullUrl,
         mergeHeaders [("Content-Type", contentType.mime)] cfg.additionalHeaders,
         encodeBody contentType body⟩
      match tryPost transport call contentType cfg.schema
          (cfg.safeParse.getD false) cfg.parseResponse with
      | .ok v => (.ok v, [call])
      | .error e => (.error (wrapCatch e), [call])

/-- Concrete URL platform used by witnesses: knows the absolute URL
`http://e/x` and resolves route `x` against base `http://e/`. -/
def demoApi : URLApi :=
  ⟨fun s => if s == "http://e/x" then .ok ⟨"http://e/x", []⟩ else .error "Invalid URL",
   fun route base =>
     if base == "http://e/" && route == "x" then .ok ⟨"http://e/x", []⟩
     else .error "Invalid URL"⟩

/-- A 200 response whose JSON body decodes to `null`. -/
def respOkNull : Response := ⟨200, .ok .null, "t"⟩

/-- A 404 response. -/
def resp404 : Response := ⟨404, .ok .null, "t"⟩

/-- A schema that rejects every value with a fixed structured error. -/
def rejectSchema : ZodSchema := ⟨fun _ => .error ⟨"boom", ["issue"]⟩⟩

/-- A GET configuration with only the absolute URL set. -/
def cfgBasic : GetConfig :=
  GetConfig.mk (some "http://e/x") none none none none none none [] none

/-- A POST configuration with the absolute URL and a JS `null` body. -/
def pcfgNull : PostConfig :=
  PostConfig.mk (some "http://e/x") none none (some .null) none none none [] none

/-- C6: when `url` is a well-formed absolute URL (non-empty and accepted
by the platform parser), `buildUrl` returns its normalized rendering and
ignores `baseUrl` and `route`, whatever they are. -/
theorem C6_absolute_url_precedence (api : URLApi) (baseUrl route : Option String)
    (u : String) (rec : URLRec) (hne : u ≠ "") (hp : api.parseAbs u = .ok rec) :
    buildUrl api baseUrl route (some u) = .ok rec.render := by
  unfold buildUrl jsTruthy
  have : (u == "") = false := by simpa using hne
  simp [this, hp]

/-- Witness for C6 at the concrete platform `demoApi`. -/
theorem C6_absolute_url_precedence_witness :
    buildUrl demoApi (some "http://other/") (some "r") (some "http://e/x")
      = .ok "http://e/x" :=
  C6_absolute_url_precedence demoApi (some "http://other/") (some "r")
    "http://e/x" ⟨"http://e/x", []⟩ (by decide) rfl

/-- C9: an empty-string `url` is falsy, so `buildUrl` behaves exactly as
with `url` absent: with truthy `baseUrl` and `route` it resolves the
route against the base, and otherwise it raises the configuration
error (wrapped by the catch into the `Invalid URL:` form). -/
theorem C9_empty_url_like_absent (api : URLApi) (b r : Option String) :
    buildUrl api b r (some "") = buildUrl api b r none
    ∧ ((jsTruthy b && jsTruthy r) = false →
        buildUrl api b r (some "")
          = .error (.error "Invalid URL: Either 'url' or both 'baseUrl' and 'route' must be provided and valid"))
    ∧ (∀ bs rs rec, b = some bs → r = some rs →
        jsTruthy b = true → jsTruthy r = true → api.resolveRel rs bs = .ok rec →
        buildUrl api b r (some "") = .ok rec.render) := by
  refine ⟨rfl, ?_, ?_⟩
  · intro h
    unfold buildUrl
    have he : jsTruthy (some "") = false := rfl
    simp [he, h]
  · intro bs rs rec hb hr htb htr hres
    subst hb; subst hr
    unfold buildUrl
    have he : jsTruthy (some "") = false := rfl
    simp [he, htb, htr, hres]

/-- Witness for C9: with neither component the configuration error is
raised, and with a valid base/route pair the route is resolved. -/
theorem C9_empty_url_like_absent_witness :
    buildUrl demoApi none none (some "")
      = .error (.error "Invalid URL: Either 'url' or both 'baseUrl' and 'route' must be provided and valid")
    ∧ buildUrl demoApi (some "http://e/") (some "x") (some "") = .ok "http://e/x" := by
  refine ⟨(C9_empty_url_like_absent demoApi none none).2.1 (by decide), ?_⟩
  exact (C9_empty_url_like_absent demoApi (some "http://e/") (some "x")).2.2
    "http://e/" "x" ⟨"http://e/x", []⟩ rfl rfl (by decide) (by decide) rfl

/-- C8: `appendQueryParams` appends each entry to the resolved URL's
search parameters in iteration order with numeric and boolean values
stringified, and the example mapping `a: 1, b: "x", c: true` serializes
to the query string `a=1&b=x&c=true`. -/
theorem C8_query_params_appended (api : URLApi) (url : String) (rec : URLRec)
    (params : List (String × QueryVal)) (hp : api.parseAbs url = .ok rec) :
    appendQueryParams api url params
      = .ok (URLRec.render ⟨rec.base, rec.query ++ params.map (fun p => (p.1, p.2.jsString))⟩)
    ∧ (rec.query = [] →
        params = [("a", .num 1), ("b", .str "x"), ("c", .bool true)] →
        appendQueryParams api url params = .ok (rec.base ++ "?a=1&b=x&c=true")) := by
  have hmain : appendQueryParams api url params
      = .ok (URLRec.render ⟨rec.base, rec.query ++ params.map (fun p => (p.1, p.2.jsString))⟩) := by
    unfold appendQueryParams
    rw [hp]
  refine ⟨hmain, ?_⟩
  intro hq hps
  subst hps
  rw [hmain, hq]
  rfl

/-- Witness for C8 at the concrete platform `demoApi`. -/
theorem C8_query_params_appended_witness :
    appendQueryParams demoApi "http://e/x"
        [("a", .num 1), ("b", .str "x"), ("c", .bool true)]
      = .ok "http://e/x?a=1&b=x&c=true" :=
  (C8_query_params_appended demoApi "http://e/x" ⟨"http://e/x", []⟩
      [("a", .num 1), ("b", .str "x"), ("c", .bool true)] rfl).2 rfl rfl

/-- C3: POST with a resolvable URL and `body === undefined` fails with
the generic `Body must be provided` error before the try block, for
every transport, and the transport is never invoked (empty call trace). -/
theorem C3_undefined_body_fails_before_transport (api : URLApi)
    (transport : PostCall → Except JsError Response) (cfg : PostConfig) (u : String)
    (hurl : buildUrl api cfg.baseUrl cfg.route cfg.url = .ok u)
    (hbody : cfg.body = none) :
    POST api transport cfg = (.error (.error "Body must be provided"), []) := by
  unfold POST
  rw [hurl, hbody]

/-- Witness for C3: a concrete POST with no body makes no transport call. -/
theorem C3_undefined_body_fails_before_transport_witness :
    POST demoApi (fun _ => .ok respOkNull)
        (PostConfig.mk (some "http://e/x") none none none none none none [] none)
      = (.error (.error "Body must be provided"), []) :=
  C3_undefined_body_fails_before_transport demoApi (fun _ => .ok respOkNull)
    (PostConfig.mk (some "http://e/x") none none none none none none [] none)
    "http://e/x" rfl rfl

/-- C2: a transport status outside 200–299 yields an `HttpError` with
exactly that status and the fixed message, propagated unchanged through
the catch, for both GET and POST, with arbitrary response bodies and
arbitrary schema configuration (decoding and validation never run). -/
theorem C2_non_ok_status_http_error (api : URLApi) (cfgG : GetConfig) (cfgP : PostConfig)
    (u v : String) (b : Json) (resp : Response)
    (hg : resolveGetUrl api cfgG = .ok u)
    (hp : buildUrl api cfgP.baseUrl cfgP.route cfgP.url = .ok v)
    (hb : cfgP.body = some b)
    (hok : resp.ok = false) :
    (GET api (fun _ => .ok resp) cfgG).1
      = .error (.httpError resp.status
          ("Network response was not ok, status: " ++ toString resp.status))
    ∧ (POST api (fun _ => .ok resp) cfgP).1
      = .error (.httpError resp.status
          ("Network response was not ok, status: " ++ toString resp.status)) := by
  constructor
  · simp only [GET, hg]
    simp [tryGet, hok, wrapCatch]
  · simp only [POST, hp, hb]
    simp [tryPost, hok, wrapCatch]

/-- Witness for C2: a 404 response surfaces as `HttpError` with status
404 from both operations. -/
theorem C2_non_ok_status_http_error_witness :
    (GET demoApi (fun _ => .ok resp404) cfgBasic).1
      = .error (.httpError 404 "Network response was not ok, status: 404")
    ∧ (POST demoApi (fun _ => .ok resp404) pcfgNull).1
      = .error (.httpError 404 "Network response was not ok, status: 404") := by
  have h := C2_non_ok_status_http_error demoApi cfgBasic pcfgNull
    "http://e/x" "http://e/x" .null resp404 rfl rfl rfl (by decide)
  exact ⟨h.1, h.2⟩

/-- A GET configuration with a rejecting schema in strict mode
(`safeParse = false`). -/
def cfgStrictReject : GetConfig :=
  GetConfig.mk (some "http://e/x") none none none none (some rejectSchema) (some false) [] none

/-- A GET configuration with a rejecting schema in safe mode
(`safeParse = true`). -/
def cfgSafeReject : GetConfig :=
  GetConfig.mk (some "http://e/x") none none none none (some rejectSchema) (some true) [] none

/-- A POST configuration with a rejecting schema in strict mode. -/
def pcfgStrictReject : PostConfig :=
  PostConfig.mk (some "http://e/x") none none (some .null) none (some rejectSchema) (some false) [] none

/-- C1: contrary to the claim, the two modes do not converge. In safe
mode a rejected body surfaces as a `ValidationError` wrapping the
engine's structured error; but in strict mode `schema.parse` throws the
raw `ZodError`, which is neither `HttpError` nor `ValidationError`, so
the top-level catch rewraps it as the generic
`Request failed: <zod message>` error — in both GET and POST. This
contradicts the source's own JSDoc (`@throws ValidationError — Throws
when schema validation fails`). -/
theorem C1_strict_mode_wraps_zod_error :
    (GET demoApi (fun _ => .ok respOkNull) cfgStrictReject).1
      = .error (.error "Request failed: boom")
    ∧ (GET demoApi (fun _ => .ok respOkNull) cfgSafeReject).1
      = .error (.validationError ⟨"boom", ["issue"]⟩)
    ∧ (POST demoApi (fun _ => .ok respOkNull) pcfgStrictReject).1
      = .error (.error "Request failed: boom") :=
  ⟨rfl, rfl, rfl⟩

/-- C10: a POST body of JS `null` passes the `body === undefined` check,
and with JSON content type the transport is invoked exactly once with
the encoded request body `"null"` (the `JSON.stringify` of `null`). -/
theorem C10_null_body_passes_check (api : URLApi)
    (transport : PostCall → Except JsError Response) (cfg : PostConfig) (u : String)
    (hurl : buildUrl api cfg.baseUrl cfg.route cfg.url = .ok u)
    (hbody : cfg.body = some Json.null)
    (hct : cfg.contentType.getD ContentType.JSON = ContentType.JSON) :
    (POST api transport cfg).2
      = [⟨u, mergeHeaders [("Content-Type", "application/json")] cfg.additionalHeaders, "null"⟩] := by
  simp only [POST, hurl, hbody, hct]
  split <;> rfl

/-- Witness for C10: a concrete POST with a `null` body calls the
transport once with request body `"null"`. -/
theorem C10_null_body_passes_check_witness :
    (POST demoApi (fun _ => .ok respOkNull) pcfgNull).2
      = [⟨"http://e/x", [("Content-Type", "application/json")], "null"⟩] :=
  C10_null_body_passes_check demoApi (fun _ => .ok respOkNull) pcfgNull
    "http://e/x" rfl rfl rfl

/-- C4: every failure inside the try block — a transport rejection, a
JSON decode failure, or an exception from a user-supplied
`parseResponse` — is re-raised through the top-level catch: `HttpError`
and `ValidationError` verbatim, and anything else as a generic error
with message `Request failed: ` followed by the original message, or by
`An unknown error occurred` when the thrown value is not an `Error`.
Stated for an arbitrary thrown value at each origin, in GET and POST. -/
theorem C4_catch_normalization :
    (∀ (api : URLApi) (cfg : GetConfig) (u : String) (e : JsError),
      resolveGetUrl api cfg = .ok u →
      (GET api (fun _ => .error e) cfg).1 = .error (match e with
        | .httpError s m => .httpError s m
        | .validationError z => .validationError z
        | e' => .error ("Request failed: "
            ++ (if e'.isError then e'.message else "An unknown error occurred"))))
    ∧ (∀ (api : URLApi) (cfg : GetConfig) (u m : String) (resp : Response),
      resolveGetUrl api cfg = .ok u →
      cfg.contentType.getD ContentType.JSON = ContentType.JSON →
      resp.ok = true → resp.jsonBody = .error m →
      (GET api (fun _ => .ok resp) cfg).1 = .error (.error ("Request failed: " ++ m)))
    ∧ (∀ (api : URLApi) (cfg : GetConfig) (u : String) (resp : Response) (d : Json)
        (e : JsError) (f : Json → Except JsError Json),
      resolveGetUrl api cfg = .ok u →
      resp.ok = true →
      decodeResponse (cfg.contentType.getD ContentType.JSON) resp = .ok d →
      cfg.schema = none → cfg.parseResponse = some f → f d = .error e →
      (GET api (fun _ => .ok resp) cfg).1 = .error (match e with
        | .httpError s m => .httpError s m
        | .validationError z => .validationError z
        | e' => .error ("Request failed: "
            ++ (if e'.isError then e'.message else "An unknown error occurred"))))
    ∧ (∀ (api : URLApi) (cfg : PostConfig) (u : String) (b : Json) (e : JsError),
      buildUrl api cfg.baseUrl cfg.route cfg.url = .ok u →
      cfg.body = some b →
      (POST api (fun _ => .error e) cfg).1 = .error (match e with
        | .httpError s m => .httpError s m
        | .validationError z => .validationError z
        | e' => .error ("Request failed: "
            ++ (if e'.isError then e'.message else "An unknown error occurred")))) := by
  refine ⟨?_, ?_, ?_, ?_⟩
  · intro api cfg u e hg
    simp only [GET, hg, tryGet]
    cases e <;> rfl
  · intro api cfg u m resp hg hct hok hjson
    simp only [GET, hg, tryGet, hok, if_true, decodeResponse, hct]
    simp [hjson, wrapCatch, JsError.isError, JsError.message]
  · intro api cfg u resp d e f hg hok hdec hs hf hfd
    simp only [GET, hg, tryGet, hok, if_true, hdec, validateData, hs, hf, hfd]
    cases e <;> rfl
  · intro api cfg u b e hurl hb
    simp only [POST, hurl, hb, tryPost]
    cases e <;> rfl

/-- Witness for C4: concrete throws at each origin — a non-`Error`
transport rejection, a JSON parse failure, a `parseResponse` failure,
and an `HttpError` transport rejection propagated verbatim in POST. -/
theorem C4_catch_normalization_witness :
    (GET demoApi (fun _ => .error (.thrownValue (.str "x"))) cfgBasic).1
      = .error (.error "Request failed: An unknown error occurred")
    ∧ (GET demoApi (fun _ => .ok ⟨200, .error "Unexpected token", "t"⟩) cfgBasic).1
      = .error (.error "Request failed: Unexpected token")
    ∧ (GET demoApi (fun _ => .ok respOkNull)
        (GetConfig.mk (some "http://e/x") none none none none none none []
          (some (fun _ => .error (.error "user boom"))))).1
      = .error (.error "Request failed: user boom")
    ∧ (POST demoApi (fun _ => .error (.httpError 500 "m")) pcfgNull).1
      = .error (.httpError 500 "m") := by
  refine ⟨?_, ?_, ?_, ?_⟩
  · exact C4_catch_normalization.1 demoApi cfgBasic "http://e/x" (.thrownValue (.str "x")) rfl
  · exact C4_catch_normalization.2.1 demoApi cfgBasic "http://e/x" "Unexpected token"
      ⟨200, .error "Unexpected token", "t"⟩ rfl rfl (by decide) rfl
  · exact C4_catch_normalization.2.2.1 demoApi
      (GetConfig.mk (some "http://e/x") none none none none none none []
        (some (fun _ => .error (.error "user boom"))))
      "http://e/x" respOkNull .null (.error "user boom")
      (fun _ => .error (.error "user boom")) rfl (by decide) rfl rfl rfl rfl
  · exact C4_catch_normalization.2.2.2 demoApi pcfgNull "http://e/x" .null
      (.httpError 500 "m") rfl rfl


/-- The same GET configuration with `safeParse` set to the given mode. -/
def GetConfig.withSafeParse (cfg : GetConfig) (b : Bool) : GetConfig :=
  GetConfig.mk cfg.url cfg.baseUrl cfg.route cfg.queryParams cfg.contentType
    cfg.schema (some b) cfg.additionalHeaders cfg.parseResponse

/-- The same POST configuration with `safeParse` set to the given mode. -/
def PostConfig.withSafeParse (cfg : PostConfig) (b : Bool) : PostConfig :=
  PostConfig.mk cfg.url cfg.baseUrl cfg.route cfg.body cfg.contentType
    cfg.schema (some b) cfg.additionalHeaders cfg.parseResponse

/-- With an accepting schema, the GET try block yields the validated
value (fed to `parseResponse` when supplied) in either `safeParse` mode. -/
theorem tryGet_valid_ok (transport : GetCall → Except JsError Response) (call : GetCall)
    (ct : ContentType) (s : ZodSchema) (sp : Bool)
    (pr : Option (Json → Except JsError Json)) (resp : Response) (d v : Json)
    (ht : transport call = .ok resp) (hok : resp.ok = true)
    (hdec : decodeResponse ct resp = .ok d) (hsp : s.safeParse d = .ok v) :
    tryGet transport call ct (some s) sp pr
      = (match pr with | some f => f v | none => .ok v) := by
  simp only [tryGet, ht, hok, if_true, hdec, validateData]
  cases sp <;> simp [hsp]

/-- With an accepting schema, the POST try block yields the validated
value (fed to `parseResponse` when supplied) in either `safeParse` mode. -/
theorem tryPost_valid_ok (transport : PostCall → Except JsError Response) (call : PostCall)
    (ct : ContentType) (s : ZodSchema) (sp : Bool)
    (pr : Option (Json → Except JsError Json)) (resp : Response) (d v : Json)
    (ht : transport call = .ok resp) (hok : resp.ok = true)
    (hdec : decodeResponse ct resp = .ok d) (hsp : s.safeParse d = .ok v) :
    tryPost transport call ct (some s) sp pr
      = (match pr with | some f => f v | none => .ok v) := by
  simp only [tryPost, ht, hok, if_true, hdec, validateData]
  cases sp <;> simp [hsp]

/-- C5: when the supplied schema accepts the decoded body, a call in
safe mode and the same call in strict mode return identical results
(value and transport trace); in particular, without `parseResponse`
both return the schema's validated value. Stated for GET and POST. -/
theorem C5_safe_parse_invisible_on_success :
    (∀ (api : URLApi) (cfg : GetConfig) (u : String) (s : ZodSchema)
        (resp : Response) (d v : Json),
      resolveGetUrl api cfg = .ok u →
      resp.ok = true →
      decodeResponse (cfg.contentType.getD ContentType.JSON) resp = .ok d →
      cfg.schema = some s →
      s.safeParse d = .ok v →
      GET api (fun _ => .ok resp) (cfg.withSafeParse true)
        = GET api (fun _ => .ok resp) (cfg.withSafeParse false)
      ∧ (cfg.parseResponse = none →
          (GET api (fun _ => .ok resp) (cfg.withSafeParse true)).1 = .ok v))
    ∧ (∀ (api : URLApi) (cfg : PostConfig) (u : String) (b : Json) (s : ZodSchema)
        (resp : Response) (d v : Json),
      buildUrl api cfg.baseUrl cfg.route cfg.url = .ok u →
      cfg.body = some b →
      resp.ok = true →
      decodeResponse (cfg.contentType.getD ContentType.JSON) resp = .ok d →
      cfg.schema = some s →
      s.safeParse d = .ok v →
      POST api (fun _ => .ok resp) (cfg.withSafeParse true)
        = POST api (fun _ => .ok resp) (cfg.withSafeParse false)
      ∧ (cfg.parseResponse = none →
          (POST api (fun _ => .ok resp) (cfg.withSafeParse true)).1 = .ok v)) := by
  constructor
  · intro api cfg u s resp d v hg hok hdec hs hsp
    have h1 : ∀ bb : Bool,
        GET api (fun _ => .ok resp) (cfg.withSafeParse bb)
          = (match (match cfg.parseResponse with | some f => f v | none => .ok v) with
             | .ok w =>
               (Except.ok w,
                [⟨u, mergeHeaders [("Accept", (cfg.contentType.getD ContentType.JSON).mime)]
                    cfg.additionalHeaders⟩])
             | .error e =>
               (Except.error (wrapCatch e),
                [⟨u, mergeHeaders [("Accept", (cfg.contentType.getD ContentType.JSON).mime)]
                    cfg.additionalHeaders⟩])) := by
      intro bb
      have hg' : resolveGetUrl api (cfg.withSafeParse bb) = .ok u := hg
      simp only [GET, hg']
      simp only [GetConfig.withSafeParse, Option.getD_some]
      rw [hs]
      rw [tryGet_valid_ok (fun _ => .ok resp) _ _ s bb cfg.parseResponse resp d v rfl hok hdec hsp]
    constructor
    · rw [h1 true, h1 false]
    · intro hpr
      rw [h1 true, hpr]
  · intro api cfg u b s resp d v hurl hb hok hdec hs hsp
    have h1 : ∀ bb : Bool,
        POST api (fun _ => .ok resp) (cfg.withSafeParse bb)
          = (match (match cfg.parseResponse with | some f => f v | none => .ok v) with
             | .ok w =>
               (Except.ok w,
                [⟨u, mergeHeaders [("Content-Type", (cfg.contentType.getD ContentType.JSON).mime)]
                    cfg.additionalHeaders,
                  encodeBody (cfg.contentType.getD ContentType.JSON) b⟩])
             | .error e =>
               (Except.error (wrapCatch e),
                [⟨u, mergeHeaders [("Content-Type", (cfg.contentType.getD ContentType.JSON).mime)]
                    cfg.additionalHeaders,
                  encodeBody (cfg.contentType.getD ContentType.JSON) b⟩])) := by
      intro bb
      have hurl' : buildUrl api (cfg.withSafeParse bb).baseUrl (cfg.withSafeParse bb).route
          (cfg.withSafeParse bb).url = .ok u := hurl
      simp only [POST, hurl']
      simp only [PostConfig.withSafeParse]
      simp only [hb, hs, Option.getD_some]
      rw [tryPost_valid_ok (fun _ => .ok resp) _ _ s bb cfg.parseResponse resp d v rfl hok hdec hsp]
    constructor
    · rw [h1 true, h1 false]
    · intro hpr
      rw [h1 true, hpr]

/-- A schema that accepts every value unchanged. -/
def acceptSchema : ZodSchema := ⟨fun j => .ok j⟩

/-- A GET configuration with the accepting schema (safeParse defaulted). -/
def cfgAccept : GetConfig :=
  GetConfig.mk (some "http://e/x") none none none none (some acceptSchema) none [] none

/-- A POST configuration with the accepting schema and a `null` body. -/
def pcfgAccept : PostConfig :=
  PostConfig.mk (some "http://e/x") none none (some .null) none (some acceptSchema) none [] none

/-- Witness for C5: with an accepting schema, both modes of a concrete
GET and POST coincide and return the validated value. -/
theorem C5_safe_parse_invisible_on_success_witness :
    GET demoApi (fun _ => .ok respOkNull) (cfgAccept.withSafeParse true)
      = GET demoApi (fun _ => .ok respOkNull) (cfgAccept.withSafeParse false)
    ∧ (GET demoApi (fun _ => .ok respOkNull) (cfgAccept.withSafeParse true)).1 = .ok .null
    ∧ POST demoApi (fun _ => .ok respOkNull) (pcfgAccept.withSafeParse true)
      = POST demoApi (fun _ => .ok respOkNull) (pcfgAccept.withSafeParse false)
    ∧ (POST demoApi (fun _ => .ok respOkNull) (pcfgAccept.withSafeParse true)).1 = .ok .null := by
  have hG := C5_safe_parse_invisible_on_success.1 demoApi cfgAccept "http://e/x"
    acceptSchema respOkNull .null .null rfl (by decide) rfl rfl rfl
  have hP := C5_safe_parse_invisible_on_success.2 demoApi pcfgAccept "http://e/x"
    .null acceptSchema respOkNull .null .null rfl rfl (by decide) rfl rfl rfl
  exact ⟨hG.1, hG.2 rfl, hP.1, hP.2 rfl⟩

/-- C7: without a schema, the value returned is exactly the decoded
response body — the parsed JSON value for JSON content type, the raw
text otherwise — and the optional `parseResponse` transform, when
supplied, is applied to exactly that decoded value. Stated for GET and
POST. -/
theorem C7_no_schema_returns_decoded :
    (∀ (api : URLApi) (cfg : GetConfig) (u : String) (resp : Response) (d : Json),
      resolveGetUrl api cfg = .ok u → resp.ok = true →
      decodeResponse (cfg.contentType.getD ContentType.JSON) resp = .ok d →
      cfg.schema = none → cfg.parseResponse = none →
      (GET api (fun _ => .ok resp) cfg).1 = .ok d)
    ∧ (∀ (api : URLApi) (cfg : GetConfig) (u : String) (resp : Response) (d w : Json)
        (f : Json → Except JsError Json),
      resolveGetUrl api cfg = .ok u → resp.ok = true →
      decodeResponse (cfg.contentType.getD ContentType.JSON) resp = .ok d →
      cfg.schema = none → cfg.parseResponse = some f → f d = .ok w →
      (GET api (fun _ => .ok resp) cfg).1 = .ok w)
    ∧ (∀ (ct : ContentType) (resp : Response), ct ≠ ContentType.JSON →
        decodeResponse ct resp = .ok (.str resp.textBody))
    ∧ (∀ (api : URLApi) (cfg : PostConfig) (u : String) (b : Json) (resp : Response) (d : Json),
      buildUrl api cfg.baseUrl cfg.route cfg.url = .ok u →
      cfg.body = some b → resp.ok = true →
      decodeResponse (cfg.contentType.getD ContentType.JSON) resp = .ok d →
      cfg.schema = none → cfg.parseResponse = none →
      (POST api (fun _ => .ok resp) cfg).1 = .ok d) := by
  refine ⟨?_, ?_, ?_, ?_⟩
  · intro api cfg u resp d hg hok hdec hs hpr
    simp only [GET, hg, tryGet, hok, if_true, hdec, validateData, hs, hpr]
  · intro api cfg u resp d w f hg hok hdec hs hpr hf
    simp only [GET, hg, tryGet, hok, if_true, hdec, validateData, hs, hpr, hf]
  · intro ct resp hne
    have hb : (ct == ContentType.JSON) = false := by
      cases ct <;> simp_all
    simp [decodeResponse, hb]
  · intro api cfg u b resp d hurl hbd hok hdec hs hpr
    simp only [POST, hurl, hbd, tryPost, hok, if_true, hdec, validateData, hs, hpr]

/-- Witness for C7: a concrete GET returns the decoded JSON body
unchanged; with a transform, the transform of that body; a TEXT
response decodes to its raw text; a concrete POST behaves alike. -/
theorem C7_no_schema_returns_decoded_witness :
    (GET demoApi (fun _ => .ok respOkNull) cfgBasic).1 = .ok .null
    ∧ (GET demoApi (fun _ => .ok respOkNull)
        (GetConfig.mk (some "http://e/x") none none none none none none []
          (some (fun j => .ok (.arr [j]))))).1 = .ok (.arr [.null])
    ∧ decodeResponse ContentType.TEXT respOkNull = .ok (.str "t")
    ∧ (POST demoApi (fun _ => .ok respOkNull) pcfgNull).1 = .ok .null := by
  refine ⟨?_, ?_, ?_, ?_⟩
  · exact C7_no_schema_returns_decoded.1 demoApi cfgBasic "http://e/x" respOkNull .null
      rfl (by decide) rfl rfl rfl
  · exact C7_no_schema_returns_decoded.2.1 demoApi
      (GetConfig.mk (some "http://e/x") none none none none none none []
        (some (fun j => .ok (.arr [j]))))
      "http://e/x" respOkNull .null (.arr [.null]) (fun j => .ok (.arr [j]))
      rfl (by decide) rfl rfl rfl rfl
  · exact C7_no_schema_returns_decoded.2.2.1 ContentType.TEXT respOkNull (by decide)
  · exact C7_no_schema_returns_decoded.2.2.2 demoApi pcfgNull "http://e/x" .null
      respOkNull .null rfl rfl (by decide) rfl rfl rfl
